import Mathlib

/-!
Verification development for the moji-recepti backend (Express + MySQL).
The JavaScript handlers are shallowly embedded as pure Lean functions over
an explicit database state (lists of rows per table).  JavaScript numbers
that can be NaN are modelled as `Option Int` (`none` = NaN); SQL NULL is
modelled as `Option _`; absent JSON fields are an outer `Option` layer.
-/

namespace MojiRecepti

/-- Value of a list of decimal digit characters, most significant first. -/
def digitsToNat (ds : List Char) : Nat :=
  ds.foldl (fun a c => a * 10 + (c.toNat - 48)) 0

/-- JavaScript whitespace test for the characters `parseInt` skips. -/
def isJsSpace (c : Char) : Bool :=
  c = ' ' || c = '\t' || c = '\n' || c = '\r'

/-- Model of JavaScript `s.trim()`: strip leading and trailing
whitespace. -/
def jsTrim (s : String) : String :=
  ⟨((s.data.dropWhile Char.isWhitespace).reverse.dropWhile Char.isWhitespace).reverse⟩

/-- Model of JavaScript `s.toLowerCase()` on the alphabet the handlers
compare. -/
def jsToLower (s : String) : String := ⟨s.data.map Char.toLower⟩

/-- Model of JavaScript `s.startsWith(pre)`. -/
def jsStartsWith (s pre : String) : Bool := pre.data.isPrefixOf s.data

/-- Model of JavaScript `s.slice(n)` for a forward index. -/
def jsDrop (s : String) (n : Nat) : String := ⟨s.data.drop n⟩

/-- Model of JavaScript `parseInt(s, 10)`: skip leading whitespace, read an
optional sign, then the longest prefix of decimal digits; if no digit is
consumed the result is NaN, modelled as `none`. -/
def jsParseInt (s : String) : Option Int :=
  let l := s.data.dropWhile isJsSpace
  let signed : Int × List Char :=
    match l with
    | '-' :: t => (-1, t)
    | '+' :: t => (1, t)
    | _ => (1, l)
  let ds := signed.2.takeWhile Char.isDigit
  if ds.isEmpty then none else some (signed.1 * digitsToNat ds)

/-- Model of JavaScript `Number(s)` restricted to integral strings: the
trimmed empty string is 0, an optionally signed all-digit string is its
value, anything else is NaN (`none`). -/
def jsNumber (s : String) : Option Int :=
  let t := jsTrim s
  if t = "" then some 0
  else
    let signed : Int × List Char :=
      match t.data with
      | '-' :: r => (-1, r)
      | '+' :: r => (1, r)
      | l => (1, l)
    if signed.2 ≠ [] ∧ signed.2.all Char.isDigit then
      some (signed.1 * digitsToNat signed.2)
    else none

/-- `Math.max a x` with NaN propagation on the second argument. -/
def jsMax (a : Int) (x : Option Int) : Option Int := x.map (fun v => max a v)

/-- `Math.min a x` with NaN propagation on the second argument. -/
def jsMin (a : Int) (x : Option Int) : Option Int := x.map (fun v => min a v)

/-- `req.query.q || dflt`: an absent or empty query parameter falls back to
the numeric default, which `parseInt` then receives as its decimal string. -/
def queryOrDefault (q : Option String) (dflt : Int) : String :=
  match q with
  | none => toString dflt
  | some s => if s = "" then toString dflt else s

/-- Result record of the `pickPagination` helper; each component is `none`
exactly when the JavaScript computation produces NaN. -/
structure Pagination where
  page : Option Int
  pageSize : Option Int
  offset : Option Int
deriving DecidableEq, Repr

/-- Embedding of `pickPagination(req, defaultPage, defaultPageSize,
maxPageSize)`: `page = Math.max(1, parseInt(req.query.page || defaultPage, 10))`,
`pageSize = Math.min(maxPageSize, Math.max(1, parseInt(req.query.pageSize ||
defaultPageSize, 10)))`, `offset = (page - 1) * pageSize`.  The inline
copies in the list handlers compute the same expressions with the constants
1, 20, 100. -/
def pickPagination (qpage qpageSize : Option String)
    (defaultPage defaultPageSize maxPageSize : Int) : Pagination :=
  let page := jsMax 1 (jsParseInt (queryOrDefault qpage defaultPage))
  let pageSize := jsMin maxPageSize (jsMax 1 (jsParseInt (queryOrDefault qpageSize defaultPageSize)))
  let offset :=
    match page, pageSize with
    | some p, some s => some ((p - 1) * s)
    | _, _ => none
  ⟨page, pageSize, offset⟩

/-- Embedding of the `days` normalisation in `GET /inventory/expiring`:
`Math.min(365, Math.max(1, parseInt(req.query.days || "7", 10)))`. -/
def clampDays (qdays : Option String) : Option Int :=
  jsMin 365 (jsMax 1 (jsParseInt (queryOrDefault qdays 7)))

/-- JavaScript truthiness test on a nullable string: `null`, `undefined` and
the empty string are falsy. -/
def jsStrFalsy (v : Option String) : Bool := v.isNone || v == some ""

/-- Row of the `users` table. -/
structure User where
  id : Nat
  email : String
  passwordHash : String
  fullName : Option String
deriving DecidableEq, Repr

/-- Row of the global `ingredients` catalog table. -/
structure Ingredient where
  id : Nat
  name : String
  category : Option String
  defaultUnit : Option String
deriving DecidableEq, Repr

/-- Row of the `recipes` table. -/
structure Recipe where
  id : Nat
  userId : Nat
  title : String
  description : Option String
  instructions : Option String
  prepTimeMinutes : Option Int
  cookTimeMinutes : Option Int
  servings : Option Int
  isPublic : Bool
deriving DecidableEq, Repr

/-- Row of the `recipe_ingredients` join table. -/
structure RecipeIngredient where
  id : Nat
  recipeId : Nat
  ingredientId : Nat
  quantity : Int
  unit : Option String
  note : Option String
deriving DecidableEq, Repr

/-- Row of the `inventory_items` table (`quantity`, `min_quantity`,
`expires_at` are nullable in the schema; dates are modelled as `Int` day
numbers). -/
structure InvItem where
  id : Nat
  userId : Nat
  ingredientId : Option Nat
  customName : Option String
  quantity : Option Int
  unit : Option String
  location : Option String
  expiresAt : Option Int
  minQuantity : Option Int
deriving DecidableEq, Repr

/-- Row of the `shopping_lists` table. -/
structure ShoppingList where
  id : Nat
  userId : Nat
  name : String
  status : String
deriving DecidableEq, Repr

/-- Row of the `shopping_list_items` table. -/
structure SLItem where
  id : Nat
  shoppingListId : Nat
  ingredientId : Option Nat
  customName : Option String
  quantity : Option Int
  unit : Option String
  isChecked : Bool
  fromRecipeId : Option Nat
deriving DecidableEq, Repr

/-- The relational state: one list of rows per table, plus the
AUTO_INCREMENT counters the handlers read back as `insertId`. -/
structure Db where
  users : List User
  ingredients : List Ingredient
  recipes : List Recipe
  recipeIngredients : List RecipeIngredient
  inventoryItems : List InvItem
  shoppingLists : List ShoppingList
  shoppingListItems : List SLItem
  nextIngredientId : Nat
  nextRecipeIngredientId : Nat
  nextShoppingItemId : Nat
deriving DecidableEq, Repr

/-- Uniform JSON envelope of every handler: `ok` wraps the `data` payload
with its HTTP status, `err` wraps the error object with its status, `code`
and `message`. -/
inductive Resp (α : Type) where
  | ok (status : Nat) (data : α)
  | err (status : Nat) (code msg : String)
deriving DecidableEq, Repr

/-- `assertRecipeOwnership`: `SELECT id FROM recipes WHERE id = ? AND
user_id = ? LIMIT 1` has a row. -/
def assertRecipeOwnership (db : Db) (recipeId userId : Nat) : Bool :=
  db.recipes.any (fun r => r.id == recipeId && r.userId == userId)

/-- `ensureShoppingListOwned`: `SELECT id FROM shopping_lists WHERE id = ?
AND user_id = ?` has a row. -/
def ensureShoppingListOwned (db : Db) (listId userId : Nat) : Bool :=
  db.shoppingLists.any (fun l => l.id == listId && l.userId == userId)

/-- `parseId` applied to a JSON value already modelled as a number or junk:
a positive integer passes, anything else yields `null`. -/
def parseIdNum (v : Option Int) : Option Nat :=
  match v with
  | some n => if 0 < n then some n.toNat else none
  | none => none

/-- `GET /recipes/:id`: look the recipe up scoped to the caller, then join
its `recipe_ingredients` with the catalog (`ORDER BY ri.id ASC`). -/
def getRecipeHandler (db : Db) (userId recipeId : Nat) :
    Resp (Recipe × List (RecipeIngredient × String)) :=
  match db.recipes.find? (fun r => r.id == recipeId && r.userId == userId) with
  | none => .err 404 "NOT_FOUND" "Recipe not found"
  | some r =>
      let ris := (db.recipeIngredients.filter (fun ri => ri.recipeId == recipeId)).insertionSort
        (fun a b => a.id ≤ b.id)
      .ok 200 (r, ris.filterMap (fun ri =>
        (db.ingredients.find? (fun i => i.id == ri.ingredientId)).map (fun i => (ri, i.name))))

/-- Body of `PATCH /recipes/:id`; the outer `Option` is JSON field
presence, the inner one a nullable value. -/
structure RecipePatchBody where
  title : Option String := none
  description : Option (Option String) := none
  instructions : Option (Option String) := none
  prepTimeMinutes : Option (Option Int) := none
  cookTimeMinutes : Option (Option Int) := none
  servings : Option (Option Int) := none
  isPublic : Option Bool := none
deriving DecidableEq, Repr

/-- At least one updatable field is present in the patch body. -/
def recipePatchHasFields (b : RecipePatchBody) : Bool :=
  b.title.isSome || b.description.isSome || b.instructions.isSome ||
  b.prepTimeMinutes.isSome || b.cookTimeMinutes.isSome ||
  b.servings.isSome || b.isPublic.isSome

/-- Effect of the generated `UPDATE recipes SET ...` on one matched row. -/
def applyRecipePatch (b : RecipePatchBody) (r : Recipe) : Recipe :=
  let r1 := match b.title with | some t => { r with title := jsTrim t } | none => r
  let r2 := match b.description with | some d => { r1 with description := d } | none => r1
  let r3 := match b.instructions with | some v => { r2 with instructions := v } | none => r2
  let r4 := match b.prepTimeMinutes with | some v => { r3 with prepTimeMinutes := v } | none => r3
  let r5 := match b.cookTimeMinutes with | some v => { r4 with cookTimeMinutes := v } | none => r4
  let r6 := match b.servings with | some v => { r5 with servings := v } | none => r5
  match b.isPublic with | some v => { r6 with isPublic := v } | none => r6

/-- A present `title` field that is shorter than 2 characters after
trimming fails validation. -/
def recipeTitleBad (b : RecipePatchBody) : Bool :=
  match b.title with
  | some t => (jsTrim t).length < 2
  | none => false

/-- `PATCH /recipes/:id`: ownership check, title validation, field
collection, then `UPDATE ... WHERE id = ? AND user_id = ?`. -/
def patchRecipeHandler (db : Db) (userId recipeId : Nat) (b : RecipePatchBody) :
    Resp Bool × Db :=
  if !(assertRecipeOwnership db recipeId userId) then
    (.err 404 "NOT_FOUND" "Recipe not found", db)
  else if recipeTitleBad b then
    (.err 400 "VALIDATION_ERROR" "title must be at least 2 chars", db)
  else if !(recipePatchHasFields b) then
    (.err 400 "VALIDATION_ERROR" "No fields to update", db)
  else
    let affected := (db.recipes.filter (fun r => r.id == recipeId && r.userId == userId)).length
    let db2 := { db with recipes := db.recipes.map (fun r =>
      if r.id == recipeId && r.userId == userId then applyRecipePatch b r else r) }
    if affected == 0 then (.err 404 "NOT_FOUND" "Recipe not found", db2)
    else (.ok 200 true, db2)

/-- `DELETE /recipes/:id`: `DELETE FROM recipes WHERE id = ? AND
user_id = ?`; the schema cascades the delete to `recipe_ingredients`. -/
def deleteRecipeHandler (db : Db) (userId recipeId : Nat) : Resp Unit × Db :=
  let affected := (db.recipes.filter (fun r => r.id == recipeId && r.userId == userId)).length
  let db2 := { db with
    recipes := db.recipes.filter (fun r => !(r.id == recipeId && r.userId == userId)),
    recipeIngredients :=
      if affected == 0 then db.recipeIngredients
      else db.recipeIngredients.filter (fun ri => !(ri.recipeId == recipeId)) }
  if affected == 0 then (.err 404 "NOT_FOUND" "Recipe not found", db2)
  else (.ok 204 (), db2)

/-- `POST /auth/login`.  `cmp` abstracts `bcrypt.compare(password, hash)`;
the row lookup uses the trimmed, lower-cased email. -/
def loginHandler (cmp : String → String → Bool) (users : List User)
    (email password : String) : Resp User :=
  if email == "" || password == "" then
    .err 400 "VALIDATION_ERROR" "email and password are required"
  else
    match users.find? (fun u => u.email == jsToLower (jsTrim email)) with
    | none => .err 401 "UNAUTHORIZED" "Invalid credentials"
    | some u =>
        if cmp password u.passwordHash then .ok 200 u
        else .err 401 "UNAUTHORIZED" "Invalid credentials"

/-- The process environment fields `authRequired` consults. -/
structure Env where
  nodeEnv : Option String
  devUserId : Option String
deriving DecidableEq, Repr

/-- The `req.user` object a handler sees (`sub` is a JavaScript number,
`none` = NaN). -/
structure JwtUser where
  sub : Option Int
deriving DecidableEq, Repr

/-- Outcome of the `authRequired` middleware: either `next()` is called
with `req.user` set, or a 401 response is sent and the handler body is
never reached. -/
inductive AuthOutcome where
  | proceed (user : JwtUser)
  | unauthorized (status : Nat) (code msg : String)
deriving DecidableEq, Repr

/-- Truthiness of an environment variable (unset or empty is falsy). -/
def envTruthy (v : Option String) : Bool :=
  match v with
  | some s => s ≠ ""
  | none => false

/-- The `authRequired` middleware.  `verify` abstracts
`jwt.verify(token, JWT_ACCESS_SECRET)`: it returns the decoded payload for
a token with a valid signature that is not expired, and `none` (the thrown
exception) otherwise. -/
def authRequired (env : Env) (verify : String → Option JwtUser)
    (authHeader : Option String) : AuthOutcome :=
  if env.nodeEnv == some "development" && envTruthy env.devUserId then
    .proceed ⟨jsNumber (env.devUserId.getD "")⟩
  else
    match authHeader with
    | none => .unauthorized 401 "UNAUTHORIZED" "Missing token"
    | some auth =>
        if auth == "" || !(jsStartsWith auth "Bearer ") then
          .unauthorized 401 "UNAUTHORIZED" "Missing token"
        else
          match verify (jsDrop auth 7) with
          | some payload => .proceed payload
          | none => .unauthorized 401 "UNAUTHORIZED" "Invalid token"

/-- Shared tail of `POST /recipes/:id/ingredients`: insert the
`recipe_ingredients` row.  The schema's unique key on
`(recipe_id, ingredient_id)` makes a duplicate insert raise, which the
handler's catch-all turns into a 500 response. -/
def insertRecipeIngredientRow (db : Db) (recipeId ingId : Nat) (q : Int)
    (unit note : Option String) : Resp Nat × Db :=
  if db.recipeIngredients.any (fun x => x.recipeId == recipeId && x.ingredientId == ingId) then
    (.err 500 "INTERNAL_ERROR" "Duplicate entry for key uq_recipe_ingredient", db)
  else
    let ri : RecipeIngredient := ⟨db.nextRecipeIngredientId, recipeId, ingId, q, unit, note⟩
    (.ok 201 ri.id,
     { db with recipeIngredients := db.recipeIngredients ++ [ri],
               nextRecipeIngredientId := db.nextRecipeIngredientId + 1 })

/-- `POST /recipes/:id/ingredients`: ownership, quantity validation, then
ingredient resolution — a falsy `ingredientId` switches to the name path,
which looks the trimmed name up in the catalog, adopts the found row's
truthy `default_unit` when the supplied unit is falsy, or inserts a new
catalog row carrying the supplied unit. -/
def postRecipeIngredientHandler (db : Db) (userId recipeId : Nat)
    (ingredientId : Option Nat) (ingredientName : Option String)
    (quantity : Int) (unit note : Option String) : Resp Nat × Db :=
  if !(assertRecipeOwnership db recipeId userId) then
    (.err 404 "NOT_FOUND" "Recipe not found", db)
  else if quantity ≤ 0 then
    (.err 400 "VALIDATION_ERROR" "quantity must be a positive number", db)
  else if ingredientId.isNone || ingredientId == some 0 then
    match ingredientName with
    | none => (.err 400 "VALIDATION_ERROR" "ingredientId or ingredientName is required", db)
    | some nm =>
        if (jsTrim nm).length < 2 then
          (.err 400 "VALIDATION_ERROR" "ingredientId or ingredientName is required", db)
        else
          let cleanName := jsTrim nm
          match db.ingredients.find? (fun i => i.name == cleanName) with
          | some found =>
              let unit2 :=
                if jsStrFalsy unit then
                  (if jsStrFalsy found.defaultUnit then unit else found.defaultUnit)
                else unit
              insertRecipeIngredientRow db recipeId found.id quantity unit2 note
          | none =>
              let newIng : Ingredient := ⟨db.nextIngredientId, cleanName, none, unit⟩
              let db2 := { db with ingredients := db.ingredients ++ [newIng],
                                   nextIngredientId := db.nextIngredientId + 1 }
              insertRecipeIngredientRow db2 recipeId newIng.id quantity unit note
  else
    match ingredientId with
    | some iid => insertRecipeIngredientRow db recipeId iid quantity unit note
    | none => (.err 400 "VALIDATION_ERROR" "ingredientId or ingredientName is required", db)

/-- A supplied `ingredientId` that matches no catalog row. -/
def ingredientMissing (db : Db) (ingredientId : Option Nat) : Bool :=
  match ingredientId with
  | some iid => !(db.ingredients.any (fun i => i.id == iid))
  | none => false

/-- A JSON body field that is run through `parseId` when present and is
`null` otherwise (`req.body?.f !== undefined ? parseId(req.body.f) : null`). -/
def bodyParseId (v : Option (Option Int)) : Option Nat :=
  match v with
  | some w => parseIdNum w
  | none => none

/-- `POST /shopping-lists/:id/items`.  Body fields: the outer `Option` is
JSON presence; a present `ingredientId` is run through `parseId`
(`none` = non-positive or non-integer).  The INSERT stores
`ingredientId || null` and `ingredientId ? null : customName`. -/
def createSLItemHandler (db : Db) (userId listId : Nat)
    (bIngredientId : Option (Option Int)) (bCustomName : Option String)
    (bQuantity : Option Int) (bUnit : Option String)
    (bFromRecipeId : Option (Option Int)) : Resp Nat × Db :=
  if !(ensureShoppingListOwned db listId userId) then
    (.err 404 "NOT_FOUND" "Shopping list not found", db)
  else
    let ingredientId : Option Nat := bodyParseId bIngredientId
    let customName := jsTrim (bCustomName.getD "")
    if ingredientId.isNone && customName == "" then
      (.err 400 "VALIDATION_ERROR" "ingredientId or customName is required", db)
    else if ingredientMissing db ingredientId then
      (.err 400 "VALIDATION_ERROR" "ingredientId not found", db)
    else
      let fromRecipeId : Option Nat := bodyParseId bFromRecipeId
      let row : SLItem :=
        ⟨db.nextShoppingItemId, listId, ingredientId,
         (if ingredientId.isSome then none else some customName),
         bQuantity, bUnit.map jsTrim, false, fromRecipeId⟩
      (.ok 201 row.id,
       { db with shoppingListItems := db.shoppingListItems ++ [row],
                 nextShoppingItemId := db.nextShoppingItemId + 1 })

/-- Body of `PATCH /shopping-lists/:id/items/:itemId`. -/
structure SLItemPatchBody where
  ingredientId : Option (Option Int) := none
  customName : Option String := none
  quantity : Option (Option Int) := none
  unit : Option (Option String) := none
  isChecked : Option Bool := none
  fromRecipeId : Option (Option Int) := none
deriving DecidableEq, Repr

/-- The SET clauses collected by the single-item patch handler; `ident` is
the identifying-field switch, which always writes both columns. -/
structure SLItemUpdate where
  ident : Option (Option Nat × Option String) := none
  quantity : Option (Option Int) := none
  unit : Option (Option String) := none
  isChecked : Option Bool := none
  fromRecipeId : Option (Option Nat) := none
deriving DecidableEq, Repr

/-- The identifying-field branch of the item patch handler: when
`ingredientId` or `customName` is present, require one of them to be
usable, validate a supplied `ingredientId` against the catalog, and emit
either `ingredient_id = ?, custom_name = NULL` or
`ingredient_id = NULL, custom_name = ?`. -/
def slItemPatchIdent (db : Db) (b : SLItemPatchBody) :
    Except (Resp Bool) (Option (Option Nat × Option String)) :=
  if b.ingredientId.isSome || b.customName.isSome then
    let ingredientId : Option Nat := bodyParseId b.ingredientId
    let customName : String :=
      match b.customName with
      | some s => jsTrim s
      | none => ""
    if ingredientId.isNone && customName == "" then
      .error (.err 400 "VALIDATION_ERROR" "ingredientId or customName is required")
    else
      match ingredientId with
      | some iid =>
          if db.ingredients.any (fun i => i.id == iid) then .ok (some (some iid, none))
          else .error (.err 400 "VALIDATION_ERROR" "ingredientId not found")
      | none => .ok (some (none, some customName))
  else .ok none

/-- Whether the collected update writes any column. -/
def slItemUpdateHasFields (u : SLItemUpdate) : Bool :=
  u.ident.isSome || u.quantity.isSome || u.unit.isSome ||
  u.isChecked.isSome || u.fromRecipeId.isSome

/-- Effect of the generated `UPDATE shopping_list_items SET ...` on one
matched row. -/
def applySLItemUpdate (u : SLItemUpdate) (it : SLItem) : SLItem :=
  let it1 :=
    match u.ident with
    | some p => { it with ingredientId := p.1, customName := p.2 }
    | none => it
  let it2 := match u.quantity with | some q => { it1 with quantity := q } | none => it1
  let it3 := match u.unit with | some v => { it2 with unit := v } | none => it2
  let it4 := match u.isChecked with | some v => { it3 with isChecked := v } | none => it3
  match u.fromRecipeId with | some v => { it4 with fromRecipeId := v } | none => it4

/-- `PATCH /shopping-lists/:id/items/:itemId`. -/
def patchSLItemHandler (db : Db) (userId listId itemId : Nat) (b : SLItemPatchBody) :
    Resp Bool × Db :=
  if !(ensureShoppingListOwned db listId userId) then
    (.err 404 "NOT_FOUND" "Shopping list not found", db)
  else
    match slItemPatchIdent db b with
    | .error e => (e, db)
    | .ok ident =>
        let u : SLItemUpdate :=
          { ident := ident,
            quantity := b.quantity,
            unit := b.unit.map (fun v => v.map jsTrim),
            isChecked := b.isChecked,
            fromRecipeId := b.fromRecipeId.map (fun v => parseIdNum v) }
        if !(slItemUpdateHasFields u) then
          (.err 400 "VALIDATION_ERROR" "No fields to update", db)
        else
          let affected := (db.shoppingListItems.filter
            (fun it => it.id == itemId && it.shoppingListId == listId)).length
          let db2 := { db with shoppingListItems := db.shoppingListItems.map (fun it =>
            if it.id == itemId && it.shoppingListId == listId then applySLItemUpdate u it else it) }
          if affected == 0 then (.err 404 "NOT_FOUND" "Item not found", db2)
          else (.ok 200 true, db2)

/-- One entry of the `items` array of the bulk update. -/
structure BulkPatch where
  id : Option Int
  isChecked : Option Bool := none
  quantity : Option (Option Int) := none
deriving DecidableEq, Repr

/-- A bulk entry carrying at least one updatable field. -/
def bulkPatchFields (p : BulkPatch) : Bool := p.isChecked.isSome || p.quantity.isSome

/-- The `WHERE id = ? AND shopping_list_id = ?` predicate. -/
def slMatch (listId itemId : Nat) (it : SLItem) : Bool :=
  it.id == itemId && it.shoppingListId == listId

/-- Effect of one bulk UPDATE on a matched row. -/
def applyBulkFields (p : BulkPatch) (it : SLItem) : SLItem :=
  let it1 := match p.isChecked with | some b => { it with isChecked := b } | none => it
  match p.quantity with | some q => { it1 with quantity := q } | none => it1

/-- One iteration of the bulk loop: skip entries whose id fails `parseId`
or that carry no field, otherwise run the UPDATE and add its affected-row
count. -/
def applyBulkPatch (listId : Nat) (acc : List SLItem × Nat) (p : BulkPatch) :
    List SLItem × Nat :=
  match parseIdNum p.id with
  | none => acc
  | some itemId =>
      if bulkPatchFields p then
        let affected := (acc.1.filter (slMatch listId itemId)).length
        (acc.1.map (fun it => if slMatch listId itemId it then applyBulkFields p it else it),
         acc.2 + affected)
      else acc

/-- The sequential bulk loop over the `items` array. -/
def bulkUpdateItems (items : List SLItem) (listId : Nat) (patches : List BulkPatch) :
    List SLItem × Nat :=
  patches.foldl (applyBulkPatch listId) (items, 0)

/-- `PATCH /shopping-lists/:id/items:bulk`. -/
def bulkUpdateHandler (db : Db) (userId listId : Nat) (patches : List BulkPatch) :
    Resp Nat × Db :=
  if !(ensureShoppingListOwned db listId userId) then
    (.err 404 "NOT_FOUND" "Shopping list not found", db)
  else if patches.isEmpty then
    (.err 400 "VALIDATION_ERROR" "items[] is required", db)
  else
    (.ok 200 (bulkUpdateItems db.shoppingListItems listId patches).2,
     { db with shoppingListItems := (bulkUpdateItems db.shoppingListItems listId patches).1 })

/-- The rows `DELETE ... WHERE shopping_list_id = ? AND is_checked = 1`
removes. -/
def checkedOn (listId : Nat) (it : SLItem) : Bool :=
  it.shoppingListId == listId && it.isChecked

/-- `POST /shopping-lists/:id/items:clearChecked`. -/
def clearCheckedHandler (db : Db) (userId listId : Nat) : Resp Nat × Db :=
  if !(ensureShoppingListOwned db listId userId) then
    (.err 404 "NOT_FOUND" "Shopping list not found", db)
  else
    (.ok 200 (db.shoppingListItems.filter (checkedOn listId)).length,
     { db with shoppingListItems := db.shoppingListItems.filter (fun it => !(checkedOn listId it)) })

/-- `COALESCE(i.name, ii.custom_name)` under the
`LEFT JOIN ingredients i ON i.id = ii.ingredient_id`. -/
def displayName (cat : List Ingredient) (it : InvItem) : Option String :=
  match it.ingredientId.bind (fun iid => (cat.find? (fun i => i.id == iid)).map (fun i => i.name)) with
  | some n => some n
  | none => it.customName

/-- Ascending SQL comparison of a nullable string column (NULL first). -/
def optStrLe (x y : Option String) : Bool :=
  match x, y with
  | none, _ => true
  | some _, none => false
  | some s, some t => decide (s ≤ t)

/-- SQL `a <= b` on nullable numeric columns: NULL on either side is not
true. -/
def optLeNum (a b : Option Int) : Bool :=
  match a, b with
  | some x, some y => decide (x ≤ y)
  | _, _ => false

/-- Expiry sort key; rows reaching the expiring query always have a
non-null `expires_at`. -/
def expKey (it : InvItem) : Int := it.expiresAt.getD 0

/-- Boolean form of `ORDER BY expires_at ASC, COALESCE(name, custom_name)
ASC`. -/
def expLeB (cat : List Ingredient) (a b : InvItem) : Bool :=
  expKey a < expKey b ||
    (expKey a == expKey b && optStrLe (displayName cat a) (displayName cat b))

/-- The expiring ordering as a relation. -/
def expLe (cat : List Ingredient) (a b : InvItem) : Prop := expLeB cat a b = true

instance (cat : List Ingredient) : DecidableRel (expLe cat) := fun a b => by
  unfold expLe
  infer_instance

/-- `ORDER BY COALESCE(i.name, ii.custom_name) ASC` of the low-stock
query. -/
def nameLe (cat : List Ingredient) (a b : InvItem) : Prop :=
  optStrLe (displayName cat a) (displayName cat b) = true

instance (cat : List Ingredient) : DecidableRel (nameLe cat) := fun a b => by
  unfold nameLe
  infer_instance

/-- Boolean form of the inventory listing ordering:
`(expires_at IS NULL) ASC, expires_at ASC, COALESCE(...) ASC`. -/
def invListLeB (cat : List Ingredient) (a b : InvItem) : Bool :=
  let na := a.expiresAt.isNone
  let nb := b.expiresAt.isNone
  (!na && nb) || (na == nb && expLeB cat a b)

/-- The inventory listing ordering as a relation. -/
def invListLe (cat : List Ingredient) (a b : InvItem) : Prop := invListLeB cat a b = true

instance (cat : List Ingredient) : DecidableRel (invListLe cat) := fun a b => by
  unfold invListLe
  infer_instance

/-- Substring occurrence of `needle` in `hay`, the model of
`LIKE CONCAT(CHAR(37), needle, CHAR(37))`. -/
def listHasSub (needle : List Char) : List Char → Bool
  | [] => needle.isEmpty
  | c :: t => needle.isPrefixOf (c :: t) || listHasSub needle t

/-- `LIKE` on the nullable display name (NULL never matches). -/
def optContains (v : Option String) (needle : String) : Bool :=
  match v with
  | some s => listHasSub needle.data s.data
  | none => false

/-- The WHERE predicate of `GET /inventory/items` (owner scope, optional
`location`, `expiresBefore`, `lowStockOnly` and `search` filters). -/
def invListWhere (cat : List Ingredient) (userId : Nat) (location : String)
    (expiresBefore : Option Int) (lowStockOnly : Bool) (search : String)
    (it : InvItem) : Bool :=
  it.userId == userId
  && (location == "" || it.location == some location)
  && (match expiresBefore with
      | none => true
      | some eb => it.expiresAt.isSome && optLeNum it.expiresAt (some eb))
  && (!lowStockOnly || (it.minQuantity.isSome && optLeNum it.quantity it.minQuantity))
  && (search == "" || optContains (displayName cat it) search)

/-- The `items` page of `GET /inventory/items` for already-normalised
pagination values (`LIMIT pageSize OFFSET offset`). -/
def listInventoryItems (db : Db) (userId : Nat) (search location : String)
    (lowStockOnly : Bool) (expiresBefore : Option Int) (pageSize offset : Nat) :
    List InvItem :=
  ((((db.inventoryItems.filter
        (invListWhere db.ingredients userId location expiresBefore lowStockOnly search)).insertionSort
      (invListLe db.ingredients)).drop offset).take pageSize)

/-- The `items` payload of `GET /inventory/low-stock`. -/
def lowStockItems (db : Db) (userId : Nat) : List InvItem :=
  (db.inventoryItems.filter (fun it =>
      it.userId == userId && it.minQuantity.isSome && optLeNum it.quantity it.minQuantity)).insertionSort
    (nameLe db.ingredients)

/-- The filter of `GET /inventory/expiring`: owner scope, non-null
`expires_at` no later than `CURDATE() + INTERVAL days DAY`. -/
def expiringWhere (userId : Nat) (today d : Int) (it : InvItem) : Bool :=
  it.userId == userId && it.expiresAt.isSome && optLeNum it.expiresAt (some (today + d))

/-- `GET /inventory/expiring`: clamp `days`, then select and order the
caller's expiring rows.  A NaN `days` (non-numeric query input) reaches the
driver as an invalid INTERVAL and surfaces as the catch-all 500. -/
def expiringHandler (db : Db) (userId : Nat) (today : Int) (qdays : Option String) :
    Resp (Int × List InvItem) :=
  match clampDays qdays with
  | some d =>
      .ok 200 (d, (db.inventoryItems.filter (expiringWhere userId today d)).insertionSort
        (expLe db.ingredients))
  | none => .err 500 "INTERNAL_ERROR" "Invalid interval"

/-! ## C5: pagination normalisation -/

/-- C5 counterexample: on the non-numeric page parameter `"abc"`,
`parseInt` yields NaN and `Math.max(1, NaN)` is NaN, so normalisation does
not produce a page ≥ 1 (nor a numeric offset), refuting the claim for
non-numeric inputs. -/
theorem C5_counterexample :
    (pickPagination (some "abc") none 1 20 100).page = none ∧
    (pickPagination (some "abc") none 1 20 100).pageSize = some 20 ∧
    (pickPagination (some "abc") none 1 20 100).offset = none := by
  decide

/-- C5 (amended): for the two pagination configurations the code uses
(default 20 max 100, and default 50 max 200 for shopping-list items),
whenever the computed page and pageSize are numbers (i.e. the query inputs
were absent, empty, or parsed by `parseInt`), page ≥ 1, pageSize is within
1..max, offset = (page-1)*pageSize, and an absent parameter takes its
default. -/
theorem C5_pagination_normalised (qp qps : Option String) (dps mps : Int)
    (hc : (dps = 20 ∧ mps = 100) ∨ (dps = 50 ∧ mps = 200)) :
    (∀ p, (pickPagination qp qps 1 dps mps).page = some p → 1 ≤ p) ∧
    (∀ s, (pickPagination qp qps 1 dps mps).pageSize = some s → 1 ≤ s ∧ s ≤ mps) ∧
    (∀ p s, (pickPagination qp qps 1 dps mps).page = some p →
      (pickPagination qp qps 1 dps mps).pageSize = some s →
      (pickPagination qp qps 1 dps mps).offset = some ((p - 1) * s)) ∧
    (qp = none → (pickPagination qp qps 1 dps mps).page = some 1) ∧
    (qps = none → (pickPagination qp qps 1 dps mps).pageSize = some dps) := by
  have hmps : 1 ≤ mps := by rcases hc with ⟨h1, h2⟩ | ⟨h1, h2⟩ <;> omega
  refine ⟨?_, ?_, ?_, ?_, ?_⟩
  · intro p hp
    simp only [pickPagination, jsMax] at hp
    cases h : jsParseInt (queryOrDefault qp 1) with
    | none => rw [h] at hp; exact Option.noConfusion hp
    | some v =>
        rw [h] at hp
        simp only [Option.map_some'] at hp
        injection hp with hp
        omega
  · intro s hs
    simp only [pickPagination, jsMax, jsMin] at hs
    cases h : jsParseInt (queryOrDefault qps dps) with
    | none => rw [h] at hs; exact Option.noConfusion hs
    | some v =>
        rw [h] at hs
        simp only [Option.map_some'] at hs
        injection hs with hs
        omega
  · intro p s hp hs
    simp only [pickPagination, jsMax, jsMin] at hp hs ⊢
    cases h : jsParseInt (queryOrDefault qp 1) with
    | none => rw [h] at hp; exact Option.noConfusion hp
    | some v =>
        cases h2 : jsParseInt (queryOrDefault qps dps) with
        | none => rw [h2] at hs; exact Option.noConfusion hs
        | some w =>
            rw [h] at hp
            rw [h2] at hs
            simp only [Option.map_some'] at hp hs ⊢
            injection hp with hp
            injection hs with hs
            rw [hp, hs]
  · intro h
    subst h
    simp only [pickPagination, jsMax, queryOrDefault]
    decide
  · intro h
    subst h
    simp only [pickPagination, jsMax, jsMin, queryOrDefault]
    rcases hc with ⟨h1, h2⟩ | ⟨h1, h2⟩ <;> subst h1 <;> subst h2 <;> decide

/-- C5 witness: a concrete instantiation — `page=3`, `pageSize=250` under
the 20/100 configuration gives page 3 (≥ 1), pageSize 100 (clamped into
1..100) and offset 200. -/
theorem C5_witness :
    (1 : Int) ≤ 3 ∧ ((1 : Int) ≤ 100 ∧ (100 : Int) ≤ 100) ∧
    (pickPagination (some "3") (some "250") 1 20 100).offset = some 200 := by
  have h := C5_pagination_normalised (some "3") (some "250") 20 100 (Or.inl ⟨rfl, rfl⟩)
  refine ⟨h.1 3 (by decide), h.2.1 100 (by decide), ?_⟩
  have h3 := h.2.2.1 3 100 (by decide) (by decide)
  rw [h3]
  decide

/-! ## C2: absent and foreign recipes are reported identically -/

/-- Example recipe owned by user 2, used to exercise the foreign-owner
case. -/
def foreignRecipe : Recipe := ⟨10, 2, "Pancakes", none, none, none, none, none, false⟩

/-- A database whose only recipe belongs, to user 2. -/
def dbWithForeignRecipe : Db := ⟨[], [], [foreignRecipe], [], [], [], [], 1, 1, 1⟩

/-- A database with no recipes at all. -/
def dbNoRecipes : Db := ⟨[], [], [], [], [], [], [], 1, 1, 1⟩

theorem recipes_not_owned_find (db : Db) (uid rid : Nat)
    (h : ∀ r ∈ db.recipes, ¬(r.id = rid ∧ r.userId = uid)) :
    db.recipes.find? (fun r => r.id == rid && r.userId == uid) = none := by
  rw [List.find?_eq_none]
  intro r hr
  simpa using h r hr

theorem recipes_not_owned_assert (db : Db) (uid rid : Nat)
    (h : ∀ r ∈ db.recipes, ¬(r.id = rid ∧ r.userId = uid)) :
    assertRecipeOwnership db rid uid = false := by
  unfold assertRecipeOwnership
  rw [List.any_eq_false]
  intro r hr
  simpa using h r hr

theorem recipes_not_owned_filter (db : Db) (uid rid : Nat)
    (h : ∀ r ∈ db.recipes, ¬(r.id = rid ∧ r.userId = uid)) :
    db.recipes.filter (fun r => r.id == rid && r.userId == uid) = [] := by
  rw [List.filter_eq_nil_iff]
  intro r hr
  simpa using h r hr

/-- C2: on any GET/PATCH/DELETE of `/recipes/:id` where no recipe row has
the requested id with the caller as owner — i.e. the id does not exist or
the recipe belongs to a different user — the response is the NOT_FOUND
error, and any two such situations produce identical responses, so the
caller cannot tell a nonexistent recipe from another user's recipe. -/
theorem C2_not_found_uniform (db db2 : Db) (uid uid2 rid rid2 : Nat)
    (b b2 : RecipePatchBody)
    (h : ∀ r ∈ db.recipes, ¬(r.id = rid ∧ r.userId = uid))
    (h2 : ∀ r ∈ db2.recipes, ¬(r.id = rid2 ∧ r.userId = uid2)) :
    getRecipeHandler db uid rid = .err 404 "NOT_FOUND" "Recipe not found" ∧
    (patchRecipeHandler db uid rid b).1 = .err 404 "NOT_FOUND" "Recipe not found" ∧
    (deleteRecipeHandler db uid rid).1 = .err 404 "NOT_FOUND" "Recipe not found" ∧
    getRecipeHandler db uid rid = getRecipeHandler db2 uid2 rid2 ∧
    (patchRecipeHandler db uid rid b).1 = (patchRecipeHandler db2 uid2 rid2 b2).1 ∧
    (deleteRecipeHandler db uid rid).1 = (deleteRecipeHandler db2 uid2 rid2).1 := by
  have hget : getRecipeHandler db uid rid = .err 404 "NOT_FOUND" "Recipe not found" := by
    unfold getRecipeHandler
    rw [recipes_not_owned_find db uid rid h]
  have hpatch : (patchRecipeHandler db uid rid b).1 = .err 404 "NOT_FOUND" "Recipe not found" := by
    unfold patchRecipeHandler
    rw [recipes_not_owned_assert db uid rid h]
    rfl
  have hdel : (deleteRecipeHandler db uid rid).1 = .err 404 "NOT_FOUND" "Recipe not found" := by
    unfold deleteRecipeHandler
    rw [recipes_not_owned_filter db uid rid h]
    rfl
  have hget2 : getRecipeHandler db2 uid2 rid2 = .err 404 "NOT_FOUND" "Recipe not found" := by
    unfold getRecipeHandler
    rw [recipes_not_owned_find db2 uid2 rid2 h2]
  have hpatch2 : (patchRecipeHandler db2 uid2 rid2 b2).1 = .err 404 "NOT_FOUND" "Recipe not found" := by
    unfold patchRecipeHandler
    rw [recipes_not_owned_assert db2 uid2 rid2 h2]
    rfl
  have hdel2 : (deleteRecipeHandler db2 uid2 rid2).1 = .err 404 "NOT_FOUND" "Recipe not found" := by
    unfold deleteRecipeHandler
    rw [recipes_not_owned_filter db2 uid2 rid2 h2]
    rfl
  exact ⟨hget, hpatch, hdel, hget.trans hget2.symm, hpatch.trans hpatch2.symm,
    hdel.trans hdel2.symm⟩

/-- C2 witness: user 1 requesting recipe 10 — which exists but belongs to
user 2 — gets exactly the same NOT_FOUND responses as requesting it in a
database where it does not exist at all. -/
theorem C2_witness :
    getRecipeHandler dbWithForeignRecipe 1 10 = .err 404 "NOT_FOUND" "Recipe not found" ∧
    getRecipeHandler dbWithForeignRecipe 1 10 = getRecipeHandler dbNoRecipes 1 10 := by
  have h := C2_not_found_uniform dbWithForeignRecipe dbNoRecipes 1 1 10 10 {} {}
    (by decide) (by decide)
  exact ⟨h.1, h.2.2.2.1⟩

/-! ## C3: login failures are indistinguishable -/

/-- C3: a login with a registered email but a failing password comparison
and a login with an email matching no user row both yield status 401 with
code UNAUTHORIZED and the same message, hence equal response values. -/
theorem C3_login_indistinguishable (cmp : String → String → Bool) (users : List User)
    (email1 pw1 email2 pw2 : String) (u : User)
    (he1 : email1 ≠ "") (hp1 : pw1 ≠ "")
    (he2 : email2 ≠ "") (hp2 : pw2 ≠ "")
    (hrow : users.find? (fun v => v.email == jsToLower (jsTrim email1)) = some u)
    (hbad : cmp pw1 u.passwordHash = false)
    (hnone : users.find? (fun v => v.email == jsToLower (jsTrim email2)) = none) :
    loginHandler cmp users email1 pw1 = .err 401 "UNAUTHORIZED" "Invalid credentials" ∧
    loginHandler cmp users email2 pw2 = .err 401 "UNAUTHORIZED" "Invalid credentials" ∧
    loginHandler cmp users email1 pw1 = loginHandler cmp users email2 pw2 := by
  have h1 : loginHandler cmp users email1 pw1 = .err 401 "UNAUTHORIZED" "Invalid credentials" := by
    unfold loginHandler
    rw [if_neg (by simp [he1, hp1]), hrow]
    simp [hbad]
  have h2 : loginHandler cmp users email2 pw2 = .err 401 "UNAUTHORIZED" "Invalid credentials" := by
    unfold loginHandler
    rw [if_neg (by simp [he2, hp2]), hnone]
  exact ⟨h1, h2, h1.trans h2.symm⟩

/-- A one-user credential store for the login witness. -/
def loginUsers : List User := [⟨1, "user@example.com", "hashedsecret", none⟩]

/-- Equality comparison standing in for bcrypt in the login witness. -/
def plainCompare (password hash : String) : Bool := password == hash

/-- C3 witness: with the concrete store, a wrong password for the
registered email and a login under an unknown email produce equal
UNAUTHORIZED responses. -/
theorem C3_witness :
    loginHandler plainCompare loginUsers "user@example.com" "wrongpw" =
      .err 401 "UNAUTHORIZED" "Invalid credentials" ∧
    loginHandler plainCompare loginUsers "user@example.com" "wrongpw" =
      loginHandler plainCompare loginUsers "nobody@example.com" "whatever" := by
  have h := C3_login_indistinguishable plainCompare loginUsers
    "user@example.com" "wrongpw" "nobody@example.com" "whatever"
    ⟨1, "user@example.com", "hashedsecret", none⟩
    (by decide) (by decide) (by decide) (by decide)
    (by decide) (by decide) (by decide)
  exact ⟨h.1, h.2.2⟩

/-! ## C4: the auth gate -/

/-- C4 counterexample: with `NODE_ENV=development` and `DEV_USER_ID=1` the
middleware calls the handler even though the request carries no bearer
credential at all, so the claim as stated (over every request) fails. -/
theorem C4_counterexample :
    authRequired ⟨some "development", some "1"⟩ (fun _ => none) none =
      .proceed ⟨some 1⟩ := by decide

/-- C4 (amended): whenever the development auto-user bypass is inactive
(`NODE_ENV` is not "development" or `DEV_USER_ID` is unset/empty), a
request with a missing or non-Bearer credential, or whose token fails
verification (bad signature or expired), is answered 401 UNAUTHORIZED
without reaching the handler; conversely any request that reaches the
handler presented a Bearer token that verified. -/
theorem C4_auth_gate (env : Env) (verify : String → Option JwtUser)
    (hdev : ¬(env.nodeEnv = some "development" ∧ envTruthy env.devUserId = true)) :
    (authRequired env verify none = .unauthorized 401 "UNAUTHORIZED" "Missing token") ∧
    (∀ auth, jsStartsWith auth "Bearer " = false →
        authRequired env verify (some auth) = .unauthorized 401 "UNAUTHORIZED" "Missing token") ∧
    (∀ auth, jsStartsWith auth "Bearer " = true → verify (jsDrop auth 7) = none →
        authRequired env verify (some auth) = .unauthorized 401 "UNAUTHORIZED" "Invalid token") ∧
    (∀ hdr payload, authRequired env verify hdr = .proceed payload →
        ∃ auth, hdr = some auth ∧ jsStartsWith auth "Bearer " = true ∧
          verify (jsDrop auth 7) = some payload) := by
  have hg : (env.nodeEnv == some "development" && envTruthy env.devUserId) = false := by
    rcases hb : (env.nodeEnv == some "development" && envTruthy env.devUserId) with _ | _
    · rfl
    · exfalso
      rw [Bool.and_eq_true, beq_iff_eq] at hb
      exact hdev hb
  refine ⟨?_, ?_, ?_, ?_⟩
  · unfold authRequired
    rw [hg]
    rfl
  · intro auth hsw
    unfold authRequired
    rw [hg]
    simp [hsw]
  · intro auth hsw hv
    have hne : (auth == "") = false := by
      rcases hb : auth == "" with _ | _
      · rfl
      · exfalso
        rw [beq_iff_eq] at hb
        subst hb
        rw [show jsStartsWith "" "Bearer " = false from rfl] at hsw
        exact Bool.noConfusion hsw
    unfold authRequired
    rw [hg]
    simp [hne, hsw, hv]
  · intro hdr payload h
    unfold authRequired at h
    rw [hg] at h
    simp only [Bool.false_eq_true, if_false] at h
    cases hdr with
    | none => exact AuthOutcome.noConfusion h
    | some auth =>
        have h2 : (if (auth == "" || !(jsStartsWith auth "Bearer ")) = true then
            AuthOutcome.unauthorized 401 "UNAUTHORIZED" "Missing token"
          else match verify (jsDrop auth 7) with
            | some payload => AuthOutcome.proceed payload
            | none => AuthOutcome.unauthorized 401 "UNAUTHORIZED" "Invalid token") =
            .proceed payload := h
        rcases hc : (auth == "" || !(jsStartsWith auth "Bearer ")) with _ | _
        · rw [hc] at h2
          simp only [Bool.false_eq_true, if_false] at h2
          cases hv : verify (jsDrop auth 7) with
          | none => rw [hv] at h2; exact AuthOutcome.noConfusion h2
          | some p =>
              rw [hv] at h2
              injection h2 with h3
              have hsw2 : jsStartsWith auth "Bearer " = true := by
                have := (Bool.or_eq_false_iff.mp hc).2
                rcases hb : jsStartsWith auth "Bearer " with _ | _
                · rw [hb] at this
                  exact Bool.noConfusion this
                · rfl
              exact ⟨auth, rfl, hsw2, by rw [hv, h3]⟩
        · rw [hc] at h2
          simp only [if_pos] at h2
          exact AuthOutcome.noConfusion h2

/-- C4 witness: with no dev bypass configured and a verifier that rejects
everything, a token-less request and a Bearer request with an unverifiable
token both get 401. -/
theorem C4_witness :
    authRequired ⟨none, none⟩ (fun _ => none) none =
      .unauthorized 401 "UNAUTHORIZED" "Missing token" ∧
    authRequired ⟨none, none⟩ (fun _ => none) (some "Bearer xyz") =
      .unauthorized 401 "UNAUTHORIZED" "Invalid token" := by
  have h := C4_auth_gate ⟨none, none⟩ (fun _ => none)
    (by rintro ⟨h1, -⟩; exact Option.noConfusion h1)
  exact ⟨h.1, h.2.2.1 "Bearer xyz" (by decide) rfl⟩

/-! ## C7: clear-checked deletes exactly the checked items and is
idempotent -/

/-- C7: on a list owned by the caller, clear-checked responds 200 with
`deletedCount` equal to the number of checked items of that list (0
included), the remaining rows are exactly the previous rows that were not
checked items of that list, and an immediately repeated call leaves the
state unchanged and reports `deletedCount = 0` with a 200 response. -/
theorem C7_clear_checked (db : Db) (uid listId : Nat)
    (hown : ensureShoppingListOwned db listId uid = true) :
    ∃ db2,
      clearCheckedHandler db uid listId =
        (.ok 200 (db.shoppingListItems.filter (checkedOn listId)).length, db2) ∧
      db2.shoppingListItems = db.shoppingListItems.filter (fun it => !(checkedOn listId it)) ∧
      (∀ it, it ∈ db2.shoppingListItems ↔
        it ∈ db.shoppingListItems ∧ checkedOn listId it = false) ∧
      clearCheckedHandler db2 uid listId = (.ok 200 0, db2) := by
  refine ⟨{ db with shoppingListItems :=
      db.shoppingListItems.filter (fun it => !(checkedOn listId it)) }, ?_, rfl, ?_, ?_⟩
  · unfold clearCheckedHandler
    rw [hown]
    rfl
  · intro it
    rw [List.mem_filter]
    simp [Bool.not_eq_true']
  · have hown2 : ensureShoppingListOwned
        { db with shoppingListItems :=
            db.shoppingListItems.filter (fun it => !(checkedOn listId it)) } listId uid = true :=
      hown
    have hcount : ((db.shoppingListItems.filter (fun it => !(checkedOn listId it))).filter
        (checkedOn listId)).length = 0 := by
      rw [List.filter_filter, List.length_eq_zero, List.filter_eq_nil_iff]
      intro a _
      cases h : checkedOn listId a <;> simp [h]
    have hidem : (db.shoppingListItems.filter (fun it => !(checkedOn listId it))).filter
        (fun it => !(checkedOn listId it)) =
        db.shoppingListItems.filter (fun it => !(checkedOn listId it)) := by
      rw [List.filter_filter]
      exact List.filter_congr (fun a _ => by cases checkedOn listId a <;> rfl)
    unfold clearCheckedHandler
    rw [hown2]
    simp only [Bool.not_true, Bool.false_eq_true, if_false]
    rw [hcount, hidem]

/-- A one-list, three-item state for the clear-checked witness. -/
def c7Db : Db :=
  ⟨[], [], [], [], [],
   [⟨5, 1, "Groceries", "open"⟩],
   [⟨1, 5, none, some "Milk", some 1, none, true, none⟩,
    ⟨2, 5, none, some "Eggs", some 10, none, false, none⟩,
    ⟨3, 5, none, some "Bread", some 1, none, true, none⟩],
   1, 1, 4⟩

/-- C7 witness: clearing the concrete list deletes its two checked items,
and the theorem also yields the idempotent second call. -/
theorem C7_witness :
    ∃ db2, clearCheckedHandler c7Db 1 5 = (.ok 200 2, db2) ∧
      clearCheckedHandler db2 1 5 = (.ok 200 0, db2) := by
  obtain ⟨db2, h1, -, -, h4⟩ := C7_clear_checked c7Db 1 5 (by decide)
  refine ⟨db2, ?_, h4⟩
  rw [h1]
  rfl

/-! ## C6: bulk update -/

/-- Rows a bulk entry would affect on a given item state: 0 when its id
fails `parseId` or it carries no field, otherwise the number of rows
matching `id = ? AND shopping_list_id = ?`. -/
def rowsMatched (items : List SLItem) (listId : Nat) (p : BulkPatch) : Nat :=
  match parseIdNum p.id with
  | none => 0
  | some itemId =>
      if bulkPatchFields p then (items.filter (slMatch listId itemId)).length else 0

theorem applyBulkFields_key (p : BulkPatch) (it : SLItem) :
    (applyBulkFields p it).id = it.id ∧
    (applyBulkFields p it).shoppingListId = it.shoppingListId := by
  unfold applyBulkFields
  cases p.isChecked <;> cases p.quantity <;> simp

theorem slMatch_applyBulkFields (l i : Nat) (p : BulkPatch) (it : SLItem) :
    slMatch l i (applyBulkFields p it) = slMatch l i it := by
  unfold slMatch
  rw [(applyBulkFields_key p it).1, (applyBulkFields_key p it).2]

theorem length_filter_pointwise (l i : Nat) (g : SLItem → SLItem)
    (hg : ∀ it, slMatch l i (g it) = slMatch l i it) (items : List SLItem) :
    ((items.map g).filter (slMatch l i)).length = (items.filter (slMatch l i)).length := by
  induction items with
  | nil => rfl
  | cons a t ih =>
      rw [List.map_cons, List.filter_cons, List.filter_cons, hg a]
      cases slMatch l i a <;> simp [ih]

theorem applyBulkPatch_count (listId : Nat) (items : List SLItem) (c : Nat) (p : BulkPatch) :
    (applyBulkPatch listId (items, c) p).2 = c + rowsMatched items listId p := by
  unfold applyBulkPatch rowsMatched
  cases parseIdNum p.id with
  | none => rfl
  | some i => cases h : bulkPatchFields p <;> simp [h]

theorem rowsMatched_applyBulkPatch (listId : Nat) (items : List SLItem) (c : Nat)
    (p p2 : BulkPatch) :
    rowsMatched (applyBulkPatch listId (items, c) p).1 listId p2 =
      rowsMatched items listId p2 := by
  unfold applyBulkPatch
  cases parseIdNum p.id with
  | none => rfl
  | some i =>
      cases h : bulkPatchFields p
      · rfl
      · simp only [if_pos h]
        unfold rowsMatched
        cases parseIdNum p2.id with
        | none => rfl
        | some i2 =>
            cases h2 : bulkPatchFields p2
            · simp [h2]
            · simp only [if_pos h2]
              congr 1
              exact length_filter_pointwise listId i2 _
                (fun it => by
                  by_cases hm : slMatch listId i it = true
                  · rw [if_pos hm]
                    exact slMatch_applyBulkFields listId i2 p it
                  · rw [if_neg hm])
                items

theorem bulkUpdateItems_count (listId : Nat) (patches : List BulkPatch) :
    ∀ (items : List SLItem) (c : Nat),
      (patches.foldl (applyBulkPatch listId) (items, c)).2 =
        c + (patches.map (rowsMatched items listId)).sum := by
  induction patches with
  | nil => intro items c; simp
  | cons p t ih =>
      intro items c
      rw [List.foldl_cons]
      have hsplit : applyBulkPatch listId (items, c) p =
          ((applyBulkPatch listId (items, c) p).1, (applyBulkPatch listId (items, c) p).2) := rfl
      rw [hsplit, ih]
      rw [applyBulkPatch_count]
      have hmap : t.map (rowsMatched (applyBulkPatch listId (items, c) p).1 listId) =
          t.map (rowsMatched items listId) := by
        apply List.map_congr_left
        intro q _
        exact rowsMatched_applyBulkPatch listId items c p q
      rw [hmap, List.map_cons, List.sum_cons]
      omega

theorem map_update_no_match (pfn : SLItem → Bool) (f : SLItem → SLItem) (l : List SLItem)
    (h : ∀ a ∈ l, pfn a ≠ true) :
    l.map (fun it => if pfn it then f it else it) = l := by
  induction l with
  | nil => rfl
  | cons a t ih =>
      rw [List.map_cons, if_neg (h a (List.mem_cons_self a t)),
        ih (fun b hb => h b (List.mem_cons_of_mem a hb))]

theorem bulkPatch_skip (listId : Nat) (items : List SLItem) (c : Nat) (p : BulkPatch)
    (h : rowsMatched items listId p = 0) :
    applyBulkPatch listId (items, c) p = (items, c) := by
  unfold applyBulkPatch
  cases hid : parseIdNum p.id with
  | none => rfl
  | some i =>
      have h2 : (if bulkPatchFields p then (items.filter (slMatch listId i)).length else 0) = 0 := by
        have h3 : rowsMatched items listId p =
            (if bulkPatchFields p then (items.filter (slMatch listId i)).length else 0) := by
          unfold rowsMatched
          rw [hid]
        rw [h3] at h
        exact h
      cases hf : bulkPatchFields p
      · rfl
      · rw [if_pos hf] at h2
        have hnil := List.length_eq_zero.mp h2
        rw [List.filter_eq_nil_iff] at hnil
        show (items.map (fun it => if slMatch listId i it then applyBulkFields p it else it),
            c + (items.filter (slMatch listId i)).length) = (items, c)
        rw [map_update_no_match (slMatch listId i) (applyBulkFields p) items hnil, h2,
          Nat.add_zero]

/-- C6: on an owned list with a non-empty patch array, the bulk handler
succeeds with `updatedCount` equal to the sum over patches of the rows each
one matches (entries with an invalid id, no fields, or no matching row on
the list contribute 0 and leave the state untouched). -/
theorem C6_bulk_update (db : Db) (uid listId : Nat) (patches : List BulkPatch)
    (hown : ensureShoppingListOwned db listId uid = true)
    (hne : patches ≠ []) :
    (∃ items2, bulkUpdateHandler db uid listId patches =
        (.ok 200 ((patches.map (rowsMatched db.shoppingListItems listId)).sum),
         { db with shoppingListItems := items2 })) ∧
    (∀ c p, rowsMatched db.shoppingListItems listId p = 0 →
        applyBulkPatch listId (db.shoppingListItems, c) p = (db.shoppingListItems, c)) := by
  constructor
  · refine ⟨(bulkUpdateItems db.shoppingListItems listId patches).1, ?_⟩
    have hc : (bulkUpdateItems db.shoppingListItems listId patches).2 =
        (patches.map (rowsMatched db.shoppingListItems listId)).sum := by
      unfold bulkUpdateItems
      rw [bulkUpdateItems_count listId patches db.shoppingListItems 0]
      omega
    unfold bulkUpdateHandler
    rw [hown]
    simp only [Bool.not_true, Bool.false_eq_true, if_false]
    rw [if_neg (show ¬(patches.isEmpty = true) by simp [hne])]
    rw [hc]
  · intro c p h
    exact bulkPatch_skip listId db.shoppingListItems c p h

/-- A one-list, one-item state for the bulk-update witness. -/
def c6Db : Db :=
  ⟨[], [], [], [], [],
   [⟨5, 1, "Weekly", "open"⟩],
   [⟨100, 5, none, some "Milk", some 1, none, false, none⟩],
   1, 1, 101⟩

/-- The bulk entries of the witness: item 100 exists on list 5, item 999
does not. -/
def c6Patches : List BulkPatch :=
  [⟨some 100, some true, none⟩, ⟨some 999, some true, none⟩]

/-- C6 witness: bulk-updating one existing and one nonexistent item id on
the concrete list reports `updatedCount = 1`. -/
theorem C6_witness : (bulkUpdateHandler c6Db 1 5 c6Patches).1 = .ok 200 1 := by
  obtain ⟨items2, he⟩ := (C6_bulk_update c6Db 1 5 c6Patches (by decide) (by decide)).1
  have h2 := congrArg Prod.fst he
  rw [h2]
  show Resp.ok 200 ((c6Patches.map (rowsMatched c6Db.shoppingListItems 5)).sum) = Resp.ok 200 1
  decide

/-! ## C8: expiring view -/

theorem optStrLe_total (x y : Option String) : optStrLe x y = true ∨ optStrLe y x = true := by
  cases x <;> cases y <;> simp [optStrLe]
  exact le_total _ _

theorem optStrLe_trans (x y z : Option String) (h1 : optStrLe x y = true)
    (h2 : optStrLe y z = true) : optStrLe x z = true := by
  cases x <;> cases y <;> cases z <;> simp_all [optStrLe]
  exact le_trans h1 h2

instance (cat : List Ingredient) : IsTotal InvItem (expLe cat) := ⟨by
  intro a b
  simp only [expLe, expLeB, Bool.or_eq_true, Bool.and_eq_true, decide_eq_true_eq, beq_iff_eq]
  rcases lt_trichotomy (expKey a) (expKey b) with h | h | h
  · exact Or.inl (Or.inl h)
  · rcases optStrLe_total (displayName cat a) (displayName cat b) with hn | hn
    · exact Or.inl (Or.inr ⟨h, hn⟩)
    · exact Or.inr (Or.inr ⟨h.symm, hn⟩)
  · exact Or.inr (Or.inl h)⟩

instance (cat : List Ingredient) : IsTrans InvItem (expLe cat) := ⟨by
  intro a b c hab hbc
  simp only [expLe, expLeB, Bool.or_eq_true, Bool.and_eq_true, decide_eq_true_eq,
    beq_iff_eq] at hab hbc ⊢
  rcases hab with h1 | ⟨he1, hn1⟩ <;> rcases hbc with h2 | ⟨he2, hn2⟩
  · exact Or.inl (lt_trans h1 h2)
  · exact Or.inl (he2 ▸ h1)
  · exact Or.inl (he1 ▸ h2)
  · exact Or.inr ⟨he1.trans he2, optStrLe_trans _ _ _ hn1 hn2⟩⟩

instance (cat : List Ingredient) : IsTotal InvItem (nameLe cat) := ⟨by
  intro a b
  exact optStrLe_total (displayName cat a) (displayName cat b)⟩

instance (cat : List Ingredient) : IsTrans InvItem (nameLe cat) := ⟨by
  intro a b c hab hbc
  exact optStrLe_trans _ _ _ hab hbc⟩

/-- C8 counterexample: for the non-numeric query `days=abc`, `parseInt`
yields NaN, `Math.max`/`Math.min` propagate it, so `days` is NaN rather
than a value clamped into 1..365, and the request errors instead of
returning the expiring rows. -/
theorem C8_counterexample :
    clampDays (some "abc") = none ∧
    expiringHandler dbNoRecipes 1 0 (some "abc") =
      .err 500 "INTERNAL_ERROR" "Invalid interval" := by
  decide

/-- C8: whenever the clamped `days` value is a number (the query parameter
was absent, empty, or numeric), it lies in 1..365, defaults to 7 when the
parameter is absent, and the expiring payload carries exactly the caller's
inventory rows whose non-null `expires_at` is at most today + days, in an
order where expiry dates ascend and equal dates are ordered by display
name (catalog name when linked, else custom name). -/
theorem C8_expiring (db : Db) (uid : Nat) (today : Int) (q : Option String) (d : Int)
    (hd : clampDays q = some d) :
    1 ≤ d ∧ d ≤ 365 ∧ (q = none → d = 7) ∧
    ∃ items, expiringHandler db uid today q = .ok 200 (d, items) ∧
      (∀ it, it ∈ items ↔ it ∈ db.inventoryItems ∧ it.userId = uid ∧
        ∃ e, it.expiresAt = some e ∧ e ≤ today + d) ∧
      items.Sorted (expLe db.ingredients) := by
  have hbounds : 1 ≤ d ∧ d ≤ 365 := by
    unfold clampDays jsMin jsMax at hd
    cases h : jsParseInt (queryOrDefault q 7) with
    | none => rw [h] at hd; exact Option.noConfusion hd
    | some v =>
        rw [h] at hd
        simp only [Option.map_some'] at hd
        injection hd with hd
        omega
  refine ⟨hbounds.1, hbounds.2, ?_, ?_⟩
  · intro hq
    subst hq
    rw [show clampDays none = some 7 by decide] at hd
    injection hd with hd
    omega
  · refine ⟨(db.inventoryItems.filter (expiringWhere uid today d)).insertionSort
      (expLe db.ingredients), ?_, ?_, ?_⟩
    · unfold expiringHandler
      rw [hd]
    · intro it
      rw [(List.perm_insertionSort (expLe db.ingredients) _).mem_iff, List.mem_filter]
      unfold expiringWhere
      cases hexp : it.expiresAt with
      | none => simp [optLeNum, hexp]
      | some e => simp [optLeNum, hexp]
    · exact List.sorted_insertionSort (expLe db.ingredients) _

/-- Inventory state for the expiring witness: user 1 has a row expiring on
day 3 and one far in the future; user 2 has one expiring row. -/
def c8Db : Db :=
  ⟨[], [], [], [],
   [⟨1, 1, none, some "Milk", some 1, none, none, some 3, none⟩,
    ⟨2, 1, none, some "Flour", some 2, none, none, some 500, none⟩,
    ⟨3, 2, none, some "Eggs", some 6, none, none, some 2, none⟩],
   [], [], 1, 1, 1⟩

/-- C8 witness: with `days=7` from today 0, the clamp gives 7 and the
returned rows are exactly user 1's row expiring on day 3. -/
theorem C8_witness :
    (1 : Int) ≤ 7 ∧ (7 : Int) ≤ 365 ∧
    ∃ items, expiringHandler c8Db 1 0 (some "7") = .ok 200 (7, items) ∧
      (⟨1, 1, none, some "Milk", some 1, none, none, some 3, none⟩ ∈ items ∧
       (⟨2, 1, none, some "Flour", some 2, none, none, some 500, none⟩ : InvItem) ∉ items ∧
       (⟨3, 2, none, some "Eggs", some 6, none, none, some 2, none⟩ : InvItem) ∉ items) := by
  obtain ⟨h1, h2, -, items, he, hmem, -⟩ := C8_expiring c8Db 1 0 (some "7") 7 (by decide)
  refine ⟨h1, h2, items, he, ?_, ?_, ?_⟩
  · exact (hmem _).mpr ⟨by decide, rfl, 3, rfl, by decide⟩
  · intro hin
    obtain ⟨-, -, e, hee, hle⟩ := (hmem _).mp hin
    injection hee with hee
    omega
  · intro hin
    obtain ⟨-, hu, -⟩ := (hmem _).mp hin
    exact absurd hu (by decide)

/-! ## C9: low-stock filters -/

theorem optLeNum_true (a b : Option Int) (h : optLeNum a b = true) :
    ∃ x y, a = some x ∧ b = some y ∧ x ≤ y := by
  cases a <;> cases b <;> simp_all [optLeNum]

/-- C9: every item returned by the inventory listing with
`lowStockOnly=true` (any search, location, expiry and pagination inputs)
and every item returned by the low-stock endpoint has a non-null
`min_quantity` and a quantity at most that threshold; rows with a null
`min_quantity` are never returned. -/
theorem C9_low_stock (db : Db) (uid : Nat) :
    (∀ search location eb ps off it,
      it ∈ listInventoryItems db uid search location true eb ps off →
      ∃ m qv, it.minQuantity = some m ∧ it.quantity = some qv ∧ qv ≤ m) ∧
    (∀ it, it ∈ lowStockItems db uid →
      ∃ m qv, it.minQuantity = some m ∧ it.quantity = some qv ∧ qv ≤ m) := by
  constructor
  · intro search location eb ps off it hmem
    unfold listInventoryItems at hmem
    have hmem2 := List.drop_subset _ _ (List.take_subset _ _ hmem)
    rw [(List.perm_insertionSort (invListLe db.ingredients) _).mem_iff, List.mem_filter] at hmem2
    have hw := hmem2.2
    unfold invListWhere at hw
    simp only [Bool.and_eq_true] at hw
    have hlow := hw.1.2
    rw [Bool.or_eq_true] at hlow
    rcases hlow with hlow | hlow
    · exact absurd hlow (by decide)
    · rw [Bool.and_eq_true] at hlow
      obtain ⟨-, hq⟩ := hlow
      obtain ⟨qv, m, hq1, hm1, hle⟩ := optLeNum_true _ _ hq
      exact ⟨m, qv, hm1, hq1, hle⟩
  · intro it hmem
    unfold lowStockItems at hmem
    rw [(List.perm_insertionSort (nameLe db.ingredients) _).mem_iff, List.mem_filter] at hmem
    have hw := hmem.2
    simp only [Bool.and_eq_true] at hw
    obtain ⟨⟨-, -⟩, hq⟩ := hw
    obtain ⟨qv, m, hq1, hm1, hle⟩ := optLeNum_true _ _ hq
    exact ⟨m, qv, hm1, hq1, hle⟩

/-- Inventory state for the low-stock witness: a row at or below its
threshold, a row above it, and a row with no threshold. -/
def c9Db : Db :=
  ⟨[], [], [], [],
   [⟨1, 1, none, some "Milk", some 1, none, none, none, some 2⟩,
    ⟨2, 1, none, some "Flour", some 9, none, none, none, some 2⟩,
    ⟨3, 1, none, some "Eggs", some 0, none, none, none, none⟩],
   [], [], 1, 1, 1⟩

/-- C9 witness: the theorem applied to a concrete member of the low-stock
payload produces its threshold facts. -/
theorem C9_witness :
    ∃ m qv, (⟨1, 1, none, some "Milk", some 1, none, none, none, some 2⟩ : InvItem).minQuantity
        = some m ∧
      (⟨1, 1, none, some "Milk", some 1, none, none, none, some 2⟩ : InvItem).quantity
        = some qv ∧ qv ≤ m := by
  refine (C9_low_stock c9Db 1).2 _ ?_
  unfold lowStockItems
  rw [(List.perm_insertionSort (nameLe c9Db.ingredients) _).mem_iff, List.mem_filter]
  exact ⟨by decide, by decide⟩

/-! ## C1: ingredient resolution on recipe-ingredient creation -/

/-- C1: for a creation request with a name and no ingredientId on an owned
recipe with a valid quantity: if the catalog has a row with exactly the
trimmed name, no catalog row is added, one recipe_ingredient row referencing
that row's id is appended, and when no explicit unit was supplied the
stored unit is the catalog row's default unit (for a default that is not
the degenerate empty string); if no catalog row matches, exactly one new
ingredient row with the trimmed name and the given unit and exactly one
recipe_ingredient row referencing its fresh id are appended. -/
theorem C1_catalog_resolution (db : Db) (uid rid : Nat) (nm : String)
    (q : Int) (unit note : Option String)
    (hown : assertRecipeOwnership db rid uid = true)
    (hq : 0 < q) (hnm : 2 ≤ (jsTrim nm).length) :
    (∀ ing, db.ingredients.find? (fun i => i.name == jsTrim nm) = some ing →
      db.recipeIngredients.any (fun x => x.recipeId == rid && x.ingredientId == ing.id) = false →
      (postRecipeIngredientHandler db uid rid none (some nm) q unit note =
        (.ok 201 db.nextRecipeIngredientId,
         { db with
             recipeIngredients := db.recipeIngredients ++
               [⟨db.nextRecipeIngredientId, rid, ing.id, q,
                 (if jsStrFalsy unit then
                    (if jsStrFalsy ing.defaultUnit then unit else ing.defaultUnit)
                  else unit), note⟩],
             nextRecipeIngredientId := db.nextRecipeIngredientId + 1 }) ∧
       (unit = none → ing.defaultUnit ≠ some "" →
         (if jsStrFalsy unit then
            (if jsStrFalsy ing.defaultUnit then unit else ing.defaultUnit)
          else unit) = ing.defaultUnit))) ∧
    (db.ingredients.find? (fun i => i.name == jsTrim nm) = none →
      db.recipeIngredients.any
        (fun x => x.recipeId == rid && x.ingredientId == db.nextIngredientId) = false →
      postRecipeIngredientHandler db uid rid none (some nm) q unit note =
        (.ok 201 db.nextRecipeIngredientId,
         { db with
             ingredients := db.ingredients ++ [⟨db.nextIngredientId, jsTrim nm, none, unit⟩],
             nextIngredientId := db.nextIngredientId + 1,
             recipeIngredients := db.recipeIngredients ++
               [⟨db.nextRecipeIngredientId, rid, db.nextIngredientId, q, unit, note⟩],
             nextRecipeIngredientId := db.nextRecipeIngredientId + 1 })) := by
  have hq2 : ¬(q ≤ 0) := not_le.mpr hq
  have hnm2 : ¬((jsTrim nm).length < 2) := by omega
  constructor
  · intro ing hfind hdup
    constructor
    · simp [postRecipeIngredientHandler, insertRecipeIngredientRow, hown, hq2, hnm2,
        hfind, hdup]
    · intro hu hne
      subst hu
      cases hdu : ing.defaultUnit with
      | none => simp [jsStrFalsy]
      | some d =>
          have hdne : d ≠ "" := fun he => hne (by rw [hdu, he])
          have hd : jsStrFalsy (some d) = false := by simp [jsStrFalsy, hdne]
          simp [jsStrFalsy, hd, hdne]
  · intro hfind hfresh
    simp [postRecipeIngredientHandler, insertRecipeIngredientRow, hown, hq2, hnm2,
      hfind, hfresh]

/-- State for the resolution witness: a catalog with one ingredient
("Moka", default unit "g") and one recipe owned by user 1. -/
def c1Db : Db :=
  ⟨[], [⟨7, "Moka", some "Osnovno", some "g"⟩],
   [⟨3, 1, "Pancakes", none, none, none, none, none, false⟩],
   [], [], [], [], 8, 1, 1⟩

/-- C1 witness: adding " Moka " (no unit) reuses catalog id 7 and adopts
default unit "g" without touching the catalog; adding "Sladkor" with unit
"kg" creates catalog row 8 with that name and unit and one
recipe_ingredient row referencing it. -/
theorem C1_witness :
    postRecipeIngredientHandler c1Db 1 3 none (some " Moka ") 200 none none =
      (.ok 201 1,
       { c1Db with recipeIngredients := [⟨1, 3, 7, 200, some "g", none⟩],
                   nextRecipeIngredientId := 2 }) ∧
    postRecipeIngredientHandler c1Db 1 3 none (some "Sladkor") 50 (some "kg") none =
      (.ok 201 1,
       { c1Db with ingredients := c1Db.ingredients ++ [⟨8, "Sladkor", none, some "kg"⟩],
                   nextIngredientId := 9,
                   recipeIngredients := [⟨1, 3, 8, 50, some "kg", none⟩],
                   nextRecipeIngredientId := 2 }) := by
  have h1 := (C1_catalog_resolution c1Db 1 3 " Moka " 200 none none
    (by decide) (by decide) (by decide)).1
    ⟨7, "Moka", some "Osnovno", some "g"⟩ (by decide) (by decide)
  have h2 := (C1_catalog_resolution c1Db 1 3 "Sladkor" 50 (some "kg") none
    (by decide) (by decide) (by decide)).2 (by decide) (by decide)
  constructor
  · rw [h1.1]
    decide
  · rw [h2]
    decide

/-! ## C10: shopping-list items keep at most one identifying field -/

/-- At most one of `ingredient_id` and `custom_name` is non-null. -/
def slIdentExclusive (it : SLItem) : Prop :=
  it.ingredientId = none ∨ it.customName = none

/-- Successful item creation appends exactly the row the INSERT writes. -/
theorem createSLItem_success (db : Db) (uid listId : Nat) (bIng : Option (Option Int))
    (bCustom : Option String) (bQty : Option Int) (bUnit : Option String)
    (bFrom : Option (Option Int)) (newId : Nat) (db2 : Db)
    (h : createSLItemHandler db uid listId bIng bCustom bQty bUnit bFrom = (.ok 201 newId, db2)) :
    db2.shoppingListItems = db.shoppingListItems ++
      [⟨db.nextShoppingItemId, listId, bodyParseId bIng,
        (if (bodyParseId bIng).isSome then none else some (jsTrim (bCustom.getD ""))),
        bQty, bUnit.map jsTrim, false, bodyParseId bFrom⟩] := by
  simp only [createSLItemHandler] at h
  split at h
  · exact absurd (congrArg Prod.fst h) (by simp)
  · split at h
    · exact absurd (congrArg Prod.fst h) (by simp)
    · split at h
      · exact absurd (congrArg Prod.fst h) (by simp)
      · rw [Prod.mk.injEq] at h
        obtain ⟨-, h2⟩ := h
        subst h2
        rfl

theorem slItemPatchIdent_shape (db : Db) (b : SLItemPatchBody)
    (ident : Option Nat × Option String)
    (h : slItemPatchIdent db b = .ok (some ident)) :
    (∃ iid, ident = (some iid, none)) ∨ (∃ nm2, ident = (none, some nm2)) := by
  simp only [slItemPatchIdent] at h
  split at h
  · split at h
    · exact Except.noConfusion h
    · split at h
      · split at h
        · injection h with h2
          injection h2 with h3
          exact Or.inl ⟨_, h3.symm⟩
        · exact Except.noConfusion h
      · injection h with h2
        injection h2 with h3
        exact Or.inr ⟨_, h3.symm⟩
  · injection h with h2
    exact Option.noConfusion h2

theorem applySLItemUpdate_ident_none (u : SLItemUpdate) (it : SLItem)
    (h : u.ident = none) :
    (applySLItemUpdate u it).ingredientId = it.ingredientId ∧
    (applySLItemUpdate u it).customName = it.customName := by
  cases hq : u.quantity <;> cases hu : u.unit <;> cases hc : u.isChecked <;>
    cases hf : u.fromRecipeId <;> simp [applySLItemUpdate, h, hq, hu, hc, hf]

theorem applySLItemUpdate_ident_some (u : SLItemUpdate) (it : SLItem)
    (p : Option Nat × Option String) (h : u.ident = some p) :
    (applySLItemUpdate u it).ingredientId = p.1 ∧
    (applySLItemUpdate u it).customName = p.2 := by
  cases hq : u.quantity <;> cases hu : u.unit <;> cases hc : u.isChecked <;>
    cases hf : u.fromRecipeId <;> simp [applySLItemUpdate, h, hq, hu, hc, hf]

theorem slItemUpdate_preserves_exclusive (u : SLItemUpdate) (it : SLItem)
    (hshape : u.ident = none ∨ (∃ iid, u.ident = some (some iid, none)) ∨
      (∃ nm2, u.ident = some (none, some nm2)))
    (hex : slIdentExclusive it) : slIdentExclusive (applySLItemUpdate u it) := by
  rcases hshape with hsh | ⟨iid, hsh⟩ | ⟨nm2, hsh⟩
  · obtain ⟨hi, hc⟩ := applySLItemUpdate_ident_none u it hsh
    unfold slIdentExclusive at hex ⊢
    rw [hi, hc]
    exact hex
  · obtain ⟨-, hc⟩ := applySLItemUpdate_ident_some u it _ hsh
    exact Or.inr hc
  · obtain ⟨hi, -⟩ := applySLItemUpdate_ident_some u it _ hsh
    exact Or.inl hi

/-- C10: item creation only writes rows with at most one identifying
field — a supplied (and valid) ingredientId forces `custom_name = NULL`
even when a customName was sent, and the identifying branch of the item
patch always writes one field and NULLs the other, so a patch applied to a
state of exclusive rows leaves every row exclusive. -/
theorem C10_ident_exclusive :
    (∀ db uid listId bIng bCustom bQty bUnit bFrom newId db2,
      createSLItemHandler db uid listId bIng bCustom bQty bUnit bFrom = (.ok 201 newId, db2) →
      ∃ row, db2.shoppingListItems = db.shoppingListItems ++ [row] ∧
        slIdentExclusive row ∧
        (∀ v iid, bIng = some v → parseIdNum v = some iid →
          row.ingredientId = some iid ∧ row.customName = none)) ∧
    (∀ db b ident, slItemPatchIdent db b = .ok (some ident) →
      (∃ iid, ident = (some iid, none)) ∨ (∃ nm2, ident = (none, some nm2))) ∧
    (∀ db uid listId itemId b resp db2,
      (∀ it ∈ db.shoppingListItems, slIdentExclusive it) →
      patchSLItemHandler db uid listId itemId b = (resp, db2) →
      ∀ it2 ∈ db2.shoppingListItems, slIdentExclusive it2) := by
  refine ⟨?_, ?_, ?_⟩
  · intro db uid listId bIng bCustom bQty bUnit bFrom newId db2 h
    refine ⟨_, createSLItem_success db uid listId bIng bCustom bQty bUnit bFrom newId db2 h,
      ?_, ?_⟩
    · cases hI : bodyParseId bIng with
      | none => exact Or.inl (by simp [hI])
      | some iid => exact Or.inr (by simp [hI])
    · intro v iid hv hp
      subst hv
      exact ⟨by simp [bodyParseId, hp], by simp [bodyParseId, hp]⟩
  · intro db b ident h
    exact slItemPatchIdent_shape db b ident h
  · intro db uid listId itemId b resp db2 hexcl h
    simp only [patchSLItemHandler] at h
    split at h
    · rw [Prod.mk.injEq] at h
      obtain ⟨-, h2⟩ := h
      subst h2
      exact hexcl
    · split at h
      · rw [Prod.mk.injEq] at h
        obtain ⟨-, h2⟩ := h
        subst h2
        exact hexcl
      · rename_i ident hident
        split at h
        · rw [Prod.mk.injEq] at h
          obtain ⟨-, h2⟩ := h
          subst h2
          exact hexcl
        · have hshape : ident = none ∨ (∃ iid, ident = some (some iid, none)) ∨
              (∃ nm2, ident = some (none, some nm2)) := by
            cases ident with
            | none => exact Or.inl rfl
            | some p =>
                rcases slItemPatchIdent_shape db b p hident with ⟨iid, hp⟩ | ⟨nm2, hp⟩
                · exact Or.inr (Or.inl ⟨iid, by rw [hp]⟩)
                · exact Or.inr (Or.inr ⟨nm2, by rw [hp]⟩)
          split at h <;>
          · rw [Prod.mk.injEq] at h
            obtain ⟨-, h2⟩ := h
            subst h2
            intro it2 hit2
            obtain ⟨it0, hit0, heq⟩ := List.mem_map.mp hit2
            by_cases hm : (it0.id == itemId && it0.shoppingListId == listId) = true
            · rw [if_pos hm] at heq
              rw [← heq]
              exact slItemUpdate_preserves_exclusive _ it0 hshape (hexcl it0 hit0)
            · rw [if_neg hm] at heq
              rw [← heq]
              exact hexcl it0 hit0

/-- State for the exclusivity witness: catalog ingredient 7 and shopping
list 5 owned by user 1. -/
def c10Db : Db :=
  ⟨[], [⟨7, "Moka", none, some "g"⟩], [], [], [], [⟨5, 1, "Weekly", "open"⟩], [], 8, 1, 20⟩

/-- The state after the witness creation request. -/
def c10DbAfter : Db :=
  ⟨[], [⟨7, "Moka", none, some "g"⟩], [], [], [],
   [⟨5, 1, "Weekly", "open"⟩],
   [⟨20, 5, some 7, none, none, none, false, none⟩], 8, 1, 21⟩

/-- C10 witness: creating an item with both `ingredientId = 7` and a
customName stores `custom_name = NULL` alongside `ingredient_id = 7`. -/
theorem C10_witness :
    ∃ row, c10DbAfter.shoppingListItems = c10Db.shoppingListItems ++ [row] ∧
      slIdentExclusive row ∧ row.ingredientId = some 7 ∧ row.customName = none := by
  obtain ⟨row, h1, h2, h3⟩ := C10_ident_exclusive.1 c10Db 1 5 (some (some 7)) (some "ignored")
    none none none 20 c10DbAfter (by decide)
  have h4 := h3 (some 7) 7 rfl (by decide)
  exact ⟨row, h1, h2, h4.1, h4.2⟩

end MojiRecepti
